import Mathlib

/-!
Shallow embedding of the simple-quiz-engine backend
(src/backend/app/database.py and src/backend/app/main.py).

Conventions used throughout:
- SQLite rows are Lean structures whose fields are exactly the table columns
  of the schema in database.py; the database is a record of row lists.
  SQL SELECT / UPDATE / INSERT statements are translated by
  filtering / mapping the row lists exactly as the statements read.
- JSON payloads built by the server are `JVal` objects mirroring the Python
  dict literals in main.py field by field.
- `datetime.now()` values are threaded in as explicit parameters
  (string timestamps for stored columns, whole-second `Nat` clocks for the
  in-memory question timer).
- Python floats are modelled as exact rationals; every numeric value reached
  in the verified scenarios is exactly representable.
- Exceptions escaping a message handler are modelled by the `exn` field of
  `HResult`; state mutated before the raise is kept, as in Python.
-/

namespace QuizEngine

/-- JSON-style values as produced by the server and received from clients. -/
inductive JVal where
  | null : JVal
  | bool : Bool → JVal
  | int : Int → JVal
  | rat : Rat → JVal
  | str : String → JVal
  | arr : List JVal → JVal
  | obj : List (String × JVal) → JVal

/-- Python `dict.get(k)` over an association-list object (None when absent). -/
def dictGet? (o : List (String × JVal)) (k : String) : Option JVal :=
  (o.find? (fun p => p.1 == k)).map (fun p => p.2)

/-- Python `dict.get(k, d)` with a default. -/
def dictGetD (o : List (String × JVal)) (k : String) (d : JVal) : JVal :=
  (dictGet? o k).getD d

/-- Field lookup on a `JVal.obj`; `none` on non-objects. -/
def objGet? : JVal → String → Option JVal
  | .obj o, k => dictGet? o k
  | _, _ => none

/-- Keys of a `JVal.obj` (empty for non-objects). -/
def objKeys : JVal → List String
  | .obj o => o.map (fun p => p.1)
  | _ => []

/-- `isinstance(x, int)`: Python ints, and bools (bool is an int subclass). -/
def pyAsInt? : Option JVal → Option Int
  | some (.int n) => some n
  | some (.bool b) => some (if b then 1 else 0)
  | _ => none

/-- `isinstance(x, str)`: exactly JSON strings. -/
def pyAsStr? : Option JVal → Option String
  | some (.str s) => some s
  | _ => none

/-- `str(x)` as used by the f-string in the unknown-message error.
Composite values get an approximate rendering; no verified scenario
formats a composite discriminator. -/
def pyStrOf : JVal → String
  | .null => "None"
  | .bool b => if b then "True" else "False"
  | .int n => toString n
  | .rat q => toString q
  | .str s => s
  | .arr _ => "<list>"
  | .obj _ => "<dict>"

def pyStr (v : Option JVal) : String := pyStrOf (v.getD .null)

/-- Values of the sessions.status TEXT column (database.py schema comment:
not_started, in_progress, completed). -/
inductive Status where
  | not_started : Status
  | in_progress : Status
  | completed : Status
deriving Repr, DecidableEq

def Status.toPy : Status → String
  | .not_started => "not_started"
  | .in_progress => "in_progress"
  | .completed => "completed"

/-- Position along the lifecycle chain not_started → in_progress → completed. -/
def Status.rank : Status → Nat
  | .not_started => 0
  | .in_progress => 1
  | .completed => 2

/-- Row of the quizzes table. -/
structure Quiz where
  id : String
  title : String
  description : Option String
  time_limit_seconds : Int
deriving Repr, DecidableEq

/-- Row of the questions table (options are the parsed JSON array). -/
structure Question where
  id : String
  quiz_id : String
  question_number : Int
  question_text : String
  options : List String
  correct_answer : String
  points : Int
deriving Repr, DecidableEq

/-- Row of the sessions table. The schema has no token column. -/
structure Session where
  id : String
  quiz_id : String
  student_name : Option String
  started_at : Option String
  completed_at : Option String
  time_remaining_seconds : Int
  current_question : Int
  status : Status
  score : Option Rat
deriving Repr, DecidableEq

/-- Row of the responses table (the AUTOINCREMENT id is modelled by list
position; is_correct INTEGER 0/1 is a Bool). -/
structure ResponseRow where
  session_id : String
  question_id : String
  answer : String
  is_correct : Bool
  time_spent_seconds : Int
  answered_at : String
deriving Repr, DecidableEq

/-- The SQLite database: one list of rows per table. -/
structure DB where
  quizzes : List Quiz
  questions : List Question
  sessions : List Session
  responses : List ResponseRow
deriving Repr, DecidableEq

/-- SELECT * FROM quizzes WHERE id = ? (fetchone). -/
def get_quiz (db : DB) (quiz_id : String) : Option Quiz :=
  db.quizzes.find? (fun q => q.id == quiz_id)

/-- Insertion step for ORDER BY question_number. -/
def insertByQN (q : Question) : List Question → List Question
  | [] => [q]
  | x :: xs =>
    if q.question_number ≤ x.question_number then q :: x :: xs
    else x :: insertByQN q xs

/-- ORDER BY question_number, as a stable insertion sort. -/
def sortByQN : List Question → List Question
  | [] => []
  | x :: xs => insertByQN x (sortByQN xs)

/-- SELECT * FROM questions WHERE quiz_id = ? ORDER BY question_number. -/
def get_questions (db : DB) (quiz_id : String) : List Question :=
  sortByQN (db.questions.filter (fun q => q.quiz_id == quiz_id))

/-- SELECT * FROM questions WHERE id = ? (fetchone). -/
def get_question (db : DB) (question_id : String) : Option Question :=
  db.questions.find? (fun q => q.id == question_id)

/-- SELECT * FROM sessions WHERE id = ? (fetchone). -/
def get_session (db : DB) (session_id : String) : Option Session :=
  db.sessions.find? (fun s => s.id == session_id)

/-- database.create_session(session_id, quiz_id, student_name=None):
raises ValueError when the quiz is missing, otherwise inserts a
not_started session inheriting the quiz's time limit.  Note the function
accepts no token argument and stores none. -/
def create_session (db : DB) (session_id quiz_id : String)
    (student_name : Option String) : Except String (DB × Session) :=
  match get_quiz db quiz_id with
  | none => .error ("Quiz not found: " ++ quiz_id)
  | some quiz =>
    let s : Session := {
      id := session_id
      quiz_id := quiz_id
      student_name := student_name
      started_at := none
      completed_at := none
      time_remaining_seconds := quiz.time_limit_seconds
      current_question := 1
      status := .not_started
      score := none }
    .ok ({ db with sessions := db.sessions ++ [s] }, s)

/-- UPDATE sessions SET status = in_progress, started_at = now
WHERE id = ? AND status = 'not_started'; then re-reads the session. -/
def start_session (db : DB) (session_id : String) (now : String) :
    DB × Option Session :=
  let db1 : DB := { db with sessions := db.sessions.map (fun s =>
    if s.id == session_id && s.status == Status.not_started then
      { s with status := .in_progress, started_at := some now }
    else s) }
  (db1, get_session db1 session_id)

/-- UPDATE sessions SET time_remaining_seconds = ? WHERE id = ?. -/
def update_session_time (db : DB) (session_id : String) (t : Int) : DB :=
  { db with sessions := db.sessions.map (fun s =>
    if s.id == session_id then { s with time_remaining_seconds := t } else s) }

/-- UPDATE sessions SET current_question = ? WHERE id = ?. -/
def update_current_question (db : DB) (session_id : String) (n : Int) : DB :=
  { db with sessions := db.sessions.map (fun s =>
    if s.id == session_id then { s with current_question := n } else s) }

/-- UPDATE sessions SET status = completed, completed_at = now, score = ?
WHERE id = ?; then re-reads the session. -/
def complete_session (db : DB) (session_id : String) (score : Rat)
    (now : String) : DB × Option Session :=
  let db1 : DB := { db with sessions := db.sessions.map (fun s =>
    if s.id == session_id then
      { s with status := .completed, completed_at := some now,
               score := some score }
    else s) }
  (db1, get_session db1 session_id)

/-- `1 if question and answer == question['correct_answer'] else 0`:
correctness decided by exact string equality at write time. -/
def respIsCorrect (db : DB) (question_id answer : String) : Bool :=
  match get_question db question_id with
  | some q => answer == q.correct_answer
  | none => false

/-- database.save_response: correctness is exact string equality against the
question's correct_answer at write time; the INSERT ... ON CONFLICT upsert
replaces answer/is_correct/answered_at and accumulates time_spent_seconds.
(The conditional map realises the single-row update guaranteed by the
UNIQUE(session_id, question_id) constraint.) -/
def save_response (db : DB) (session_id question_id answer : String)
    (time_spent_seconds : Int) (now : String) :
    DB × List (String × JVal) :=
  let is_correct : Bool := respIsCorrect db question_id answer
  let hasRow : Bool := db.responses.any (fun r =>
    r.session_id == session_id && r.question_id == question_id)
  let db1 : DB :=
    if hasRow then
      { db with responses := db.responses.map (fun r =>
        if r.session_id == session_id && r.question_id == question_id then
          { r with answer := answer, is_correct := is_correct,
                   time_spent_seconds := r.time_spent_seconds + time_spent_seconds,
                   answered_at := now }
        else r) }
    else
      { db with responses := db.responses ++ [{
          session_id := session_id
          question_id := question_id
          answer := answer
          is_correct := is_correct
          time_spent_seconds := time_spent_seconds
          answered_at := now }] }
  (db1, [("question_id", .str question_id), ("answer", .str answer),
         ("is_correct", .bool is_correct)])

/-- Row of the SELECT r.*, q.question_number, q.correct_answer, q.points
join in database.get_responses. -/
structure JoinedResponse where
  session_id : String
  question_id : String
  answer : String
  is_correct : Bool
  time_spent_seconds : Int
  answered_at : String
  question_number : Int
  correct_answer : String
  points : Int
deriving Repr, DecidableEq

def insertJRByQN (r : JoinedResponse) :
    List JoinedResponse → List JoinedResponse
  | [] => [r]
  | x :: xs =>
    if r.question_number ≤ x.question_number then r :: x :: xs
    else x :: insertJRByQN r xs

def sortJRByQN : List JoinedResponse → List JoinedResponse
  | [] => []
  | x :: xs => insertJRByQN x (sortJRByQN xs)

/-- database.get_responses: responses joined with question metadata,
ordered by question_number. -/
def get_responses (db : DB) (session_id : String) : List JoinedResponse :=
  sortJRByQN ((db.responses.filter (fun r => r.session_id == session_id)).flatMap
    (fun r => (db.questions.filter (fun q => q.id == r.question_id)).map
      (fun q => {
        session_id := r.session_id
        question_id := r.question_id
        answer := r.answer
        is_correct := r.is_correct
        time_spent_seconds := r.time_spent_seconds
        answered_at := r.answered_at
        question_number := q.question_number
        correct_answer := q.correct_answer
        points := q.points })))

/-- Result dict of database.calculate_score. -/
structure ScoreData where
  earned : Int
  possible : Int
  answered : Int
  correct : Int
  percentage : Rat
deriving Repr, DecidableEq

/-- The FROM responses r JOIN questions q ON q.id = r.question_id
WHERE r.session_id = ? row set of calculate_score's aggregate query. -/
def scoreRows (db : DB) (session_id : String) :
    List (ResponseRow × Question) :=
  (db.responses.filter (fun r => r.session_id == session_id)).flatMap
    (fun r => (db.questions.filter (fun q => q.id == r.question_id)).map
      (fun q => (r, q)))

/-- database.calculate_score: the aggregates range over the join of the
session's RESPONSES with their questions, so `possible` sums the points of
answered questions only.  `if row and row['possible']` is the test
`possible ≠ 0` (a NULL sum, i.e. the empty join, also lands in the
all-zero branch). -/
def calculate_score (db : DB) (session_id : String) : ScoreData :=
  let rows := scoreRows db session_id
  let possible : Int := (rows.map (fun rq => rq.2.points)).sum
  let earned : Int :=
    (rows.map (fun rq => if rq.1.is_correct then rq.2.points else 0)).sum
  let correct : Int :=
    (rows.map (fun rq => if rq.1.is_correct then (1 : Int) else 0)).sum
  if possible ≠ 0 then
    { earned := earned
      possible := possible
      answered := (rows.length : Int)
      correct := correct
      percentage := (earned : Rat) / (possible : Rat) * 100 }
  else
    { earned := 0, possible := 0, answered := 0, correct := 0, percentage := 0 }

/-- Modelled from the spec (§4.4 step 1 / §8 score law): `possible` is the
sum of point values over ALL questions in the session's quiz, regardless of
how many were answered; percentage is earned/possible*100, 0 when possible
is 0.  Present only to exhibit the divergence from `calculate_score`. -/
def calculate_score_spec (db : DB) (session_id : String) : ScoreData :=
  let quiz_id := ((get_session db session_id).map (fun s => s.quiz_id)).getD ""
  let qs := get_questions db quiz_id
  let rows := scoreRows db session_id
  let possible : Int := (qs.map (fun q => q.points)).sum
  let earned : Int :=
    (rows.map (fun rq => if rq.1.is_correct then rq.2.points else 0)).sum
  let correct : Int :=
    (rows.map (fun rq => if rq.1.is_correct then (1 : Int) else 0)).sum
  { earned := earned
    possible := possible
    answered := (rows.length : Int)
    correct := correct
    percentage :=
      if possible = 0 then 0 else (earned : Rat) / (possible : Rat) * 100 }

/-! ## main.py: session manager, helpers, timer, completion, handlers -/

/-- QuizSessionManager's process-local state: connection handles, timer task
handles and question-start timestamps, each keyed by session id. -/
structure Manager where
  active_connections : List String
  session_tasks : List String
  question_start_times : List (String × Nat)
deriving Repr, DecidableEq

def Manager.is_connected (m : Manager) (sid : String) : Bool :=
  m.active_connections.contains sid

/-- disconnect: pop the connection, cancel and pop the timer task, clear the
question-start stamp.  Idempotent by construction. -/
def Manager.disconnect (m : Manager) (sid : String) : Manager :=
  { active_connections := m.active_connections.filter (fun x => x != sid)
    session_tasks := m.session_tasks.filter (fun x => x != sid)
    question_start_times := m.question_start_times.filter (fun p => p.1 != sid) }

/-- send_message: best-effort push — delivered only when a connection is
registered for the session, silently dropped otherwise. -/
def Manager.send (m : Manager) (sid : String) (msg : JVal) : List JVal :=
  if m.is_connected sid then [msg] else []

/-- start_question_timer: stamp now as the start of the current attempt. -/
def Manager.start_question_timer (m : Manager) (sid : String) (now : Nat) :
    Manager :=
  { m with question_start_times :=
      (sid, now) :: m.question_start_times.filter (fun p => p.1 != sid) }

/-- get_question_time_spent: whole seconds since the stamp, 0 if unstamped. -/
def Manager.get_question_time_spent (m : Manager) (sid : String) (now : Nat) :
    Int :=
  match m.question_start_times.find? (fun p => p.1 == sid) with
  | some p => (now : Int) - (p.2 : Int)
  | none => 0

/-- _build_question_ids (a set in Python; membership is all that is used). -/
def _build_question_ids (questions : List Question) : List String :=
  questions.map (fun q => q.id)

/-- _build_question_options: question_id → option strings. -/
def _build_question_options (questions : List Question) :
    List (String × List String) :=
  questions.map (fun q => (q.id, q.options))

/-- question_options.get(question_id, []). -/
def lookupOptions (qopts : List (String × List String)) (qid : String) :
    List String :=
  ((qopts.find? (fun p => p.1 == qid)).map (fun p => p.2)).getD []

/-- _get_existing_answer: first stored response for the question, if any. -/
def _get_existing_answer (db : DB) (sid qid : String) : Option String :=
  ((get_responses db sid).find? (fun r => r.question_id == qid)).map
    (fun r => r.answer)

/-- _send_question: the question event payload.  It carries ordinal, total,
id/text/options and existing_answer — the correct answer is not among the
fields. -/
def _send_question (db : DB) (sid : String) (q : Question)
    (number total : Int) : JVal :=
  .obj [("type", .str "question"),
        ("question_number", .int number),
        ("total_questions", .int total),
        ("question", .obj [("id", .str q.id),
                           ("text", .str q.question_text),
                           ("options", .arr (q.options.map JVal.str))]),
        ("existing_answer",
          match _get_existing_answer db sid q.id with
          | some a => .str a
          | none => .null)]

/-- The error event dict. -/
def errorEvent (message : String) : JVal :=
  .obj [("type", .str "error"), ("message", .str message)]

/-- The timer_tick event dict. -/
def tickEvent (remaining : Int) : JVal :=
  .obj [("type", .str "timer_tick"), ("time_remaining", .int remaining)]

def ScoreData.toObj (s : ScoreData) : JVal :=
  .obj [("earned", .int s.earned), ("possible", .int s.possible),
        ("answered", .int s.answered), ("correct", .int s.correct),
        ("percentage", .rat s.percentage)]

/-- One entry of end_quiz's results list: student answer null, correctness
false and time 0 when the question was never answered. -/
def resultEntry (responses : List JoinedResponse) (q : Question) : JVal :=
  let response := responses.find? (fun r => r.question_id == q.id)
  .obj [("question_number", .int q.question_number),
        ("question_text", .str q.question_text),
        ("correct_answer", .str q.correct_answer),
        ("your_answer",
          match response with
          | some r => .str r.answer
          | none => .null),
        ("is_correct", .bool (match response with
          | some r => r.is_correct
          | none => false)),
        ("time_spent", .int (match response with
          | some r => r.time_spent_seconds
          | none => 0))]

/-- end_quiz's results loop: one entry per quiz question, in the order
produced by get_questions (ascending question_number). -/
def buildResults (responses : List JoinedResponse)
    (questions : List Question) : List JVal :=
  questions.map (resultEntry responses)

/-- end_quiz: re-reads the session and bails when missing or already
completed; otherwise computes the score once, persists completion, builds
results, pushes quiz_complete and tears the registry entry down. -/
def end_quiz (db : DB) (mgr : Manager) (sid reason now : String) :
    DB × Manager × List JVal :=
  match get_session db sid with
  | none => (db, mgr, [])
  | some s =>
    if s.status = .completed then (db, mgr, [])
    else
      let score := calculate_score db sid
      let db1 := (complete_session db sid score.percentage now).1
      let responses := get_responses db1 sid
      -- the code re-reads the session for its quiz_id; completion preserves
      -- the row, so the re-read yields the updated copy of s
      let s1 := (get_session db1 sid).getD s
      let questions := get_questions db1 s1.quiz_id
      let results := buildResults responses questions
      let events := mgr.send sid (.obj [
        ("type", .str "quiz_complete"),
        ("reason", .str reason),
        ("score", score.toObj),
        ("results", .arr results)])
      (db1, mgr.disconnect sid, events)

/-- One while-iteration of run_timer per unit of fuel (fuel = the remaining
seconds on entry; the one-second suspension between iterations is the
fuel step itself).  Each iteration decrements, persists, pushes a tick for
the new value, re-reads the session and breaks when it is gone or already
completed.  Returns (db, pushed events, final remaining). -/
def timerLoop (mgr : Manager) (db : DB) (sid : String) :
    Nat → DB × List JVal × Nat
  | 0 => (db, [], 0)
  | r + 1 =>
    let db1 := update_session_time db sid (r : Int)
    let evs := mgr.send sid (tickEvent (r : Int))
    match get_session db1 sid with
    | none => (db1, evs, r)
    | some s =>
      if s.status = .completed then (db1, evs, r)
      else
        let next := timerLoop mgr db1 sid r
        (next.1, evs ++ next.2.1, next.2.2)

/-- run_timer: loads remaining time from storage, runs the tick loop, and
invokes end_quiz with reason time_expired exactly when the loop left the
remaining time at 0. -/
def run_timer (db : DB) (mgr : Manager) (sid now : String) :
    DB × Manager × List JVal :=
  match get_session db sid with
  | none => (db, mgr, [])
  | some s =>
    let res := timerLoop mgr db sid s.time_remaining_seconds.toNat
    if res.2.2 = 0 then
      let fin := end_quiz res.1 mgr sid "time_expired" now
      (fin.1, fin.2.1, res.2.1 ++ fin.2.2)
    else (res.1, mgr, res.2.1)

/-- Result of running one message handler: final database, final manager
state, events pushed so far, and an exception that escaped the handler body
(if any) — state mutated before a raise is kept, as in Python. -/
structure HResult where
  db : DB
  mgr : Manager
  events : List JVal
  exn : Option String

/-- _handle_start_quiz: no-op unless the session exists with status exactly
not_started; otherwise marks it in_progress, stamps the question timer,
registers a timer task if none exists, and pushes the question event for
ordinal 1.  questions[0] raises IndexError on an empty quiz.
(The spawned task's asynchronous execution is `run_timer`, modelled as a
separate invocation.) -/
def _handle_start_quiz (db : DB) (mgr : Manager) (sid : String)
    (questions : List Question) (nowT : Nat) (now : String) : HResult :=
  match get_session db sid with
  | none => ⟨db, mgr, [], none⟩
  | some s =>
    if s.status ≠ .not_started then ⟨db, mgr, [], none⟩
    else
      let db1 := (start_session db sid now).1
      let mgr1 := mgr.start_question_timer sid nowT
      let mgr2 :=
        if mgr1.session_tasks.contains sid then mgr1
        else { mgr1 with session_tasks := mgr1.session_tasks ++ [sid] }
      match questions with
      | [] => ⟨db1, mgr2, [], some "IndexError"⟩
      | q :: _ =>
        ⟨db1, mgr2,
         mgr2.send sid (_send_question db1 sid q 1 (questions.length : Int)),
         none⟩

/-- _handle_answer: validates question_id (a string in the quiz's id set)
then answer (a string among that question's options), pushing distinct
error events and mutating nothing on violation; on success upserts the
response with the elapsed question time and pushes answer_received. -/
def _handle_answer (db : DB) (mgr : Manager) (sid : String)
    (data : List (String × JVal)) (question_ids : List String)
    (question_options : List (String × List String))
    (nowT : Nat) (now : String) : HResult :=
  match pyAsStr? (dictGet? data "question_id") with
  | none => ⟨db, mgr, mgr.send sid (errorEvent "Invalid question ID"), none⟩
  | some qid =>
    if ¬ question_ids.contains qid then
      ⟨db, mgr, mgr.send sid (errorEvent "Invalid question ID"), none⟩
    else
      match pyAsStr? (dictGet? data "answer") with
      | none => ⟨db, mgr, mgr.send sid (errorEvent "Invalid answer"), none⟩
      | some a =>
        if ¬ (lookupOptions question_options qid).contains a then
          ⟨db, mgr, mgr.send sid (errorEvent "Invalid answer"), none⟩
        else
          let time_spent := mgr.get_question_time_spent sid nowT
          let db1 := (save_response db sid qid a time_spent now).1
          ⟨db1, mgr,
           mgr.send sid (.obj [("type", .str "answer_received"),
                               ("question_id", .str qid),
                               ("time_spent", .int time_spent)]),
           none⟩

/-- _handle_navigate: requires an integer `current` within [1, n]; computes
target = current + direction; out-of-range target (or current) is a silent
no-op; otherwise persists the target ordinal, re-stamps the question timer
and pushes the question event for the target. -/
def _handle_navigate (db : DB) (mgr : Manager) (sid : String)
    (data : List (String × JVal)) (questions : List Question)
    (direction : Int) (nowT : Nat) : HResult :=
  match pyAsInt? (dictGet? data "current") with
  | none => ⟨db, mgr, [], none⟩
  | some current =>
    if current < 1 ∨ (questions.length : Int) < current then ⟨db, mgr, [], none⟩
    else
      let target := current + direction
      if target < 1 ∨ (questions.length : Int) < target then ⟨db, mgr, [], none⟩
      else
        let db1 := update_current_question db sid target
        let mgr1 := mgr.start_question_timer sid nowT
        match questions[(target - 1).toNat]? with
        | none => ⟨db1, mgr1, [], some "IndexError"⟩ -- unreachable: target in range
        | some q =>
          ⟨db1, mgr1,
           mgr1.send sid (_send_question db1 sid q target (questions.length : Int)),
           none⟩

/-- _handle_goto: identical persistence/push behaviour, addressed directly
by the requested question_number; out-of-range is a silent no-op. -/
def _handle_goto (db : DB) (mgr : Manager) (sid : String)
    (data : List (String × JVal)) (questions : List Question)
    (nowT : Nat) : HResult :=
  match pyAsInt? (dictGet? data "question_number") with
  | none => ⟨db, mgr, [], none⟩
  | some target =>
    if target < 1 ∨ (questions.length : Int) < target then ⟨db, mgr, [], none⟩
    else
      let db1 := update_current_question db sid target
      let mgr1 := mgr.start_question_timer sid nowT
      match questions[(target - 1).toNat]? with
      | none => ⟨db1, mgr1, [], some "IndexError"⟩ -- unreachable: target in range
      | some q =>
        ⟨db1, mgr1,
         mgr1.send sid (_send_question db1 sid q target (questions.length : Int)),
         none⟩

/-- `msg_type == "..."`: Python equality of the extracted type value with a
string literal. -/
def isType (v : Option JVal) (t : String) : Bool :=
  match v with
  | some (.str s) => s == t
  | _ => false

/-- The six recognised inbound message kinds. -/
def knownMessageTypes : List String :=
  ["start_quiz", "answer", "next_question", "prev_question",
   "go_to_question", "submit_quiz"]

/-- The if/elif dispatch chain of handle_message (inside its try block). -/
def dispatch (db : DB) (mgr : Manager) (sid : String)
    (data : List (String × JVal)) (questions : List Question)
    (question_ids : List String)
    (question_options : List (String × List String))
    (nowT : Nat) (now : String) : HResult :=
  let msg_type := dictGet? data "type"
  if isType msg_type "start_quiz" then
    _handle_start_quiz db mgr sid questions nowT now
  else if isType msg_type "answer" then
    _handle_answer db mgr sid data question_ids question_options nowT now
  else if isType msg_type "next_question" then
    _handle_navigate db mgr sid data questions 1 nowT
  else if isType msg_type "prev_question" then
    _handle_navigate db mgr sid data questions (-1) nowT
  else if isType msg_type "go_to_question" then
    _handle_goto db mgr sid data questions nowT
  else if isType msg_type "submit_quiz" then
    let e := end_quiz db mgr sid "submitted" now
    ⟨e.1, e.2.1, e.2.2, none⟩
  else
    ⟨db, mgr,
     mgr.send sid (errorEvent ("Unknown message type: " ++ pyStr msg_type)),
     none⟩

/-- handle_message: the dispatch chain wrapped in try/except — any exception
escaping a handler is converted to a generic error event and never
propagates to the connection reader. -/
def handle_message (db : DB) (mgr : Manager) (sid : String)
    (data : List (String × JVal)) (questions : List Question)
    (question_ids : List String)
    (question_options : List (String × List String))
    (nowT : Nat) (now : String) : HResult :=
  let r := dispatch db mgr sid data questions question_ids question_options
    nowT now
  match r.exn with
  | some _ =>
    ⟨r.db, r.mgr,
     r.events ++ r.mgr.send sid (errorEvent "Failed to process message"),
     none⟩
  | none => r

/-! ## WebSocket attach and the missing get_questions_for_client -/

/-- secrets.compare_digest on str arguments: constant-time equality — the
result is plain string equality. -/
def compare_digest (a b : String) : Bool := a == b

/-- The columns of the sessions table, in schema order.  There is no token
column. -/
def sessionColumns : List String :=
  ["id", "quiz_id", "student_name", "started_at", "completed_at",
   "time_remaining_seconds", "current_question", "status", "score"]

/-- dict(row) for SELECT * FROM sessions: exactly the schema columns. -/
def sessionRowObj (s : Session) : List (String × JVal) :=
  [("id", .str s.id),
   ("quiz_id", .str s.quiz_id),
   ("student_name", match s.student_name with
     | some n => .str n
     | none => .null),
   ("started_at", match s.started_at with
     | some t => .str t
     | none => .null),
   ("completed_at", match s.completed_at with
     | some t => .str t
     | none => .null),
   ("time_remaining_seconds", .int s.time_remaining_seconds),
   ("current_question", .int s.current_question),
   ("status", .str s.status.toPy),
   ("score", match s.score with
     | some r => .rat r
     | none => .null)]

/-- Outcome of the admission checks at the top of websocket_endpoint. -/
inductive AttachResult where
  | closed : Int → String → AttachResult
  | admitted : AttachResult
deriving Repr, DecidableEq

/-- The admission sequence of websocket_endpoint: session exists, not
completed, token check (`not token or not compare_digest(token,
session.get('token', ''))`), no duplicate connection, capacity. -/
def websocket_attach (db : DB) (mgr : Manager) (maxConnections : Nat)
    (sid token : String) : AttachResult :=
  match get_session db sid with
  | none => .closed 4004 "Session not found"
  | some s =>
    if s.status = .completed then .closed 4003 "Session already completed"
    else
      let stored : String :=
        match dictGetD (sessionRowObj s) "token" (.str "") with
        | .str t => t
        | _ => ""
      if token = "" ∨ ¬ compare_digest token stored then
        .closed 4001 "Invalid token"
      else if mgr.is_connected sid then
        .closed 4009 "Session already connected"
      else if maxConnections ≤ mgr.active_connections.length then
        .closed 4029 "Server at capacity"
      else .admitted

/-- The top-level functions defined in src/backend/app/database.py. -/
def databaseModuleFunctions : List String :=
  ["get_connection", "init_database", "create_quiz", "get_quiz",
   "add_question", "get_questions", "get_question", "create_session",
   "get_session", "start_session", "update_session_time",
   "update_current_question", "complete_session", "save_response",
   "get_responses", "calculate_score", "seed_sample_quiz"]

/-- main.py calls db.get_questions_for_client; attribute resolution on the
database module fails with AttributeError because no such function is
defined there (only the tests reference one). -/
def db_get_questions_for_client (_db : DB) (_quiz_id : String) :
    Except String (List JVal) :=
  if databaseModuleFunctions.contains "get_questions_for_client" then
    .ok [] -- unreachable: the module defines no function of that name
  else
    .error
      "AttributeError: module app.database has no attribute get_questions_for_client"

/-- GET /api/quizzes/{quiz_id}: length guard, 404 on missing quiz, then the
db.get_questions_for_client call; an uncaught exception there surfaces as a
500 response. -/
def get_quiz_endpoint (db : DB) (quiz_id : String) :
    Except (Int × String) JVal :=
  if 100 < quiz_id.length then .error (400, "Invalid quiz ID")
  else
    match get_quiz db quiz_id with
    | none => .error (404, "Quiz not found")
    | some quiz =>
      match db_get_questions_for_client db quiz_id with
      | .error e => .error (500, e)
      | .ok qs =>
        .ok (.obj [("id", .str quiz.id),
                   ("title", .str quiz.title),
                   ("description", match quiz.description with
                     | some d => .str d
                     | none => .null),
                   ("time_limit_seconds", .int quiz.time_limit_seconds),
                   ("question_count", .int (qs.length : Int))])

/-- The try block of websocket_endpoint after a connection is admitted and
registered: its first statement is the db.get_questions_for_client call, so
the AttributeError reaches the outer except handler, which disconnects the
session before the connected event or any inbound message is processed.
Returns (final manager, delivered events, whether the message loop was
reached). -/
def websocket_session_body (db : DB) (mgr : Manager) (sid : String) :
    Manager × List JVal × Bool :=
  match db_get_questions_for_client db
      (((get_session db sid).map (fun s => s.quiz_id)).getD "") with
  | .error _ => (mgr.disconnect sid, [], false)
  | .ok _ => (mgr, [], true) -- unreachable: the attribute lookup always fails

/-! ## Concrete scenario fixtures -/

/-- The score-law scenario quiz: three questions worth 1, 1 and 2 points. -/
def scoreQuiz : Quiz :=
  { id := "quiz-1", title := "Demo", description := none,
    time_limit_seconds := 300 }

def scoreQuestions : List Question :=
  [{ id := "q1", quiz_id := "quiz-1", question_number := 1,
     question_text := "Q1", options := ["a", "b"], correct_answer := "a",
     points := 1 },
   { id := "q2", quiz_id := "quiz-1", question_number := 2,
     question_text := "Q2", options := ["a", "b"], correct_answer := "b",
     points := 1 },
   { id := "q3", quiz_id := "quiz-1", question_number := 3,
     question_text := "Q3", options := ["a", "b"], correct_answer := "a",
     points := 2 }]

def scoreSession : Session :=
  { id := "s1", quiz_id := "quiz-1", student_name := none,
    started_at := some "t0", completed_at := none,
    time_remaining_seconds := 300, current_question := 1,
    status := .in_progress, score := none }

/-- q1 answered correctly, q2 incorrectly, q3 not at all. -/
def scoreDB : DB :=
  { quizzes := [scoreQuiz]
    questions := scoreQuestions
    sessions := [scoreSession]
    responses :=
      [{ session_id := "s1", question_id := "q1", answer := "a",
         is_correct := true, time_spent_seconds := 3, answered_at := "t1" },
       { session_id := "s1", question_id := "q2", answer := "a",
         is_correct := false, time_spent_seconds := 4, answered_at := "t2" }] }

/-! ## Claims -/

/-- C1: the claim (and the repo's own tests) require `possible` to be the
sum of point values over ALL questions of the quiz, giving
{earned 1, possible 4, percentage 25} in the {1,1,2}-point scenario with q1
correct, q2 wrong, q3 unanswered.  The code's calculate_score aggregates
over the join of the session's responses with their questions, so the
unanswered q3 never enters the sum: it returns possible 2 and percentage 50
on that very scenario, contradicting test_calculate_score_unanswered_counts_against. -/
theorem C1_score_possible_divergence :
    calculate_score scoreDB "s1" =
      { earned := 1, possible := 2, answered := 2, correct := 1,
        percentage := 50 } ∧
    calculate_score_spec scoreDB "s1" =
      { earned := 1, possible := 4, answered := 2, correct := 1,
        percentage := 25 } := by
  constructor
  · have h : ((1 : Int) : Rat) / ((2 : Int) : Rat) * 100 = 50 := by norm_num
    calc calculate_score scoreDB "s1"
        = { earned := 1, possible := 2, answered := 2, correct := 1,
            percentage := ((1 : Int) : Rat) / ((2 : Int) : Rat) * 100 } := by
          rfl
      _ = _ := by rw [h]
  · have h : ((1 : Int) : Rat) / ((4 : Int) : Rat) * 100 = 25 := by norm_num
    calc calculate_score_spec scoreDB "s1"
        = { earned := 1, possible := 4, answered := 2, correct := 1,
            percentage := ((1 : Int) : Rat) / ((4 : Int) : Rat) * 100 } := by
          rfl
      _ = _ := by rw [h]

/-- Pointwise-identity maps are the identity. -/
theorem list_map_id_of_mem {α : Type} {l : List α} {f : α → α}
    (h : ∀ x ∈ l, f x = x) : l.map f = l := by
  induction l with
  | nil => rfl
  | cons a t ih =>
    rw [List.map_cons, h a (List.mem_cons_self a t),
        ih (fun x hx => h x (List.mem_cons_of_mem a hx))]

/-- The row save_response inserts when no response for the pair exists. -/
def freshResponse (db : DB) (sid qid a : String) (t : Int) (n : String) :
    ResponseRow :=
  { session_id := sid, question_id := qid, answer := a,
    is_correct := respIsCorrect db qid a,
    time_spent_seconds := t, answered_at := n }

/-- save_response inserts a fresh row when no response for the
(session, question) pair exists. -/
theorem save_response_insert (db : DB) (sid qid a : String) (t : Int)
    (n : String)
    (h : db.responses.any (fun r =>
      r.session_id == sid && r.question_id == qid) = false) :
    (save_response db sid qid a t n).1 =
      { db with responses := db.responses ++ [freshResponse db sid qid a t n] } := by
  simp only [save_response, freshResponse, h, Bool.false_eq_true, if_false]

/-- save_response updates the matching row in place when one exists. -/
theorem save_response_update (db : DB) (sid qid a : String) (t : Int)
    (n : String)
    (h : db.responses.any (fun r =>
      r.session_id == sid && r.question_id == qid) = true) :
    (save_response db sid qid a t n).1 =
      { db with responses := db.responses.map (fun r =>
        if r.session_id == sid && r.question_id == qid then
          { r with answer := a
                   is_correct := respIsCorrect db qid a
                   time_spent_seconds := r.time_spent_seconds + t
                   answered_at := n }
        else r) } := by
  simp only [save_response, h, if_true]

/-- C2: from a state with no stored response for the pair, answering twice
with elapsed times t1 then t2 leaves exactly one stored response for
(session, question); its time_spent_seconds is t1 + t2 while answer,
is_correct and answered_at come from the second attempt alone, is_correct
being exact string equality with the question's correct_answer at write
time. -/
theorem C2_answer_upsert (db : DB) (sid qid a1 a2 : String) (t1 t2 : Int)
    (n1 n2 : String) (Q : Question)
    (hq : get_question db qid = some Q)
    (hnone : ∀ r ∈ db.responses,
      ¬(r.session_id = sid ∧ r.question_id = qid)) :
    ((save_response ((save_response db sid qid a1 t1 n1).1)
        sid qid a2 t2 n2).1).responses.filter
        (fun r => r.session_id == sid && r.question_id == qid)
      = [{ session_id := sid, question_id := qid, answer := a2,
           is_correct := a2 == Q.correct_answer,
           time_spent_seconds := t1 + t2, answered_at := n2 }] := by
  have hnoneB : ∀ r ∈ db.responses,
      (r.session_id == sid && r.question_id == qid) = false := by
    intro r hr
    by_contra hcon
    rw [Bool.not_eq_false, Bool.and_eq_true, beq_iff_eq, beq_iff_eq] at hcon
    exact hnone r hr hcon
  have hany0 : db.responses.any (fun r =>
      r.session_id == sid && r.question_id == qid) = false := by
    rw [List.any_eq_false]
    intro r hr
    simp only [Bool.not_eq_true]
    exact hnoneB r hr
  have h1 := save_response_insert db sid qid a1 t1 n1 hany0
  have hd1 : (save_response db sid qid a1 t1 n1).1.responses
      = db.responses ++ [freshResponse db sid qid a1 t1 n1] := by rw [h1]
  have hq1 : get_question (save_response db sid qid a1 t1 n1).1 qid
      = some Q := by rw [h1]; exact hq
  have hic1 : respIsCorrect (save_response db sid qid a1 t1 n1).1 qid a2
      = (a2 == Q.correct_answer) := by
    rw [respIsCorrect, hq1]
  have hany1 : (save_response db sid qid a1 t1 n1).1.responses.any (fun r =>
      r.session_id == sid && r.question_id == qid) = true := by
    rw [hd1, List.any_append]
    simp [freshResponse]
  have h2 := save_response_update (save_response db sid qid a1 t1 n1).1
    sid qid a2 t2 n2 hany1
  rw [h2]
  show ((save_response db sid qid a1 t1 n1).1.responses.map _).filter _ = _
  rw [hd1, hic1, List.map_append, List.filter_append]
  have hid : db.responses.map (fun r =>
      if r.session_id == sid && r.question_id == qid then
        { r with answer := a2, is_correct := a2 == Q.correct_answer,
                 time_spent_seconds := r.time_spent_seconds + t2,
                 answered_at := n2 }
      else r) = db.responses := by
    apply list_map_id_of_mem
    intro r hr
    rw [hnoneB r hr]
    rfl
  rw [hid]
  rw [List.filter_eq_nil_iff.mpr (fun r hr => by
    simp only [hnoneB r hr, Bool.false_eq_true, not_false_eq_true])]
  simp [freshResponse]

/-- The scoring scenario database with no responses yet. -/
def emptyRespDB : DB :=
  { quizzes := [scoreQuiz], questions := scoreQuestions,
    sessions := [scoreSession], responses := [] }

theorem C2_answer_upsert_witness :
    ((save_response ((save_response emptyRespDB "s1" "q1" "b" 5 "n1").1)
        "s1" "q1" "a" 8 "n2").1).responses.filter
        (fun r => r.session_id == "s1" && r.question_id == "q1")
      = [{ session_id := "s1", question_id := "q1", answer := "a",
           is_correct := ("a" == "a"), time_spent_seconds := 5 + 8,
           answered_at := "n2" }] := by
  exact C2_answer_upsert emptyRespDB "s1" "q1" "b" "a" 5 8 "n1" "n2"
    { id := "q1", quiz_id := "quiz-1", question_number := 1,
      question_text := "Q1", options := ["a", "b"], correct_answer := "a",
      points := 1 }
    (by decide) (by intro r hr; simp [emptyRespDB] at hr)

/-- Reading a session back through an id-preserving row update. -/
theorem get_session_map_update (db : DB) (sid : String)
    (f : Session → Session) (hid : ∀ s, (f s).id = s.id) :
    get_session { db with sessions := db.sessions.map f } sid
      = (get_session db sid).map f := by
  show (db.sessions.map f).find? (fun s => s.id == sid)
    = (db.sessions.find? (fun s => s.id == sid)).map f
  induction db.sessions with
  | nil => rfl
  | cons a t ih =>
    simp only [List.map_cons, List.find?, hid a]
    cases hb : a.id == sid with
    | true => simp [hb]
    | false => simp [hb, ih]

/-- C3: lifecycle discipline of the start and completion triggers.
A start_quiz on a session that is not exactly not_started changes nothing
and pushes nothing; a first start moves the status one step forward to
in_progress; end_quiz on an already-completed session re-reads the status
and returns with no recomputation, no re-persist and no event; a first
completion moves the status forward to completed with the score computed
from the pre-completion state.  Together these show status only ever moves
forward along not_started → in_progress → completed and that repeated
triggers are no-ops. -/
theorem C3_lifecycle_idempotent (db : DB) (mgr : Manager)
    (sid reason now : String) (questions : List Question) (nowT : Nat)
    (s : Session) (hs : get_session db sid = some s) :
    (s.status ≠ .not_started →
      _handle_start_quiz db mgr sid questions nowT now = ⟨db, mgr, [], none⟩) ∧
    (s.status = .not_started →
      get_session (_handle_start_quiz db mgr sid questions nowT now).db sid
        = some { s with status := .in_progress, started_at := some now }) ∧
    (s.status = .completed →
      end_quiz db mgr sid reason now = (db, mgr, [])) ∧
    (s.status ≠ .completed →
      get_session (end_quiz db mgr sid reason now).1 sid
        = some { s with
            status := .completed
            completed_at := some now
            score := some (calculate_score db sid).percentage }) := by
  have hsid : s.id = sid := by
    have := List.find?_some hs
    exact beq_iff_eq.mp this
  refine ⟨?_, ?_, ?_, ?_⟩
  · intro h
    simp only [_handle_start_quiz, hs, if_pos h]
  · intro h
    have hdb : (_handle_start_quiz db mgr sid questions nowT now).db
        = (start_session db sid now).1 := by
      simp only [_handle_start_quiz, hs, h]
      cases questions with
      | nil => simp
      | cons q qs => simp
    rw [hdb]
    show get_session { db with sessions := db.sessions.map _ } sid = _
    rw [get_session_map_update db sid _ (fun x => by
      by_cases hx : (x.id == sid && x.status == Status.not_started) = true
      · simp [hx]
      · simp [hx])]
    rw [hs]; simp only [Option.map_some']
    simp [hsid, h]
  · intro h
    simp only [end_quiz, hs, h, if_pos]
  · intro h
    have hdb : (end_quiz db mgr sid reason now).1
        = (complete_session db sid (calculate_score db sid).percentage now).1 := by
      simp only [end_quiz, hs, if_neg h]
    rw [hdb]
    show get_session { db with sessions := db.sessions.map _ } sid = _
    rw [get_session_map_update db sid _ (fun x => by
      by_cases hx : (x.id == sid) = true
      · simp [hx]
      · simp [hx])]
    rw [hs]; simp only [Option.map_some']
    simp [hsid]

def nsSession : Session :=
  { scoreSession with status := .not_started, started_at := none }

def nsDB : DB := { scoreDB with sessions := [nsSession] }

def doneSession : Session := { scoreSession with status := .completed }

def doneDB : DB := { scoreDB with sessions := [doneSession] }

def mgr0 : Manager :=
  { active_connections := ["s1"], session_tasks := [],
    question_start_times := [] }

theorem C3_lifecycle_idempotent_witness :
    (_handle_start_quiz scoreDB mgr0 "s1" scoreQuestions 0 "n"
       = ⟨scoreDB, mgr0, [], none⟩) ∧
    (get_session (_handle_start_quiz nsDB mgr0 "s1" scoreQuestions 0 "n").db "s1"
       = some { nsSession with status := .in_progress, started_at := some "n" }) ∧
    (end_quiz doneDB mgr0 "s1" "submitted" "n" = (doneDB, mgr0, [])) ∧
    (get_session (end_quiz scoreDB mgr0 "s1" "submitted" "n").1 "s1"
       = some { scoreSession with
           status := .completed
           completed_at := some "n"
           score := some (calculate_score scoreDB "s1").percentage }) := by
  refine ⟨?_, ?_, ?_, ?_⟩
  · exact (C3_lifecycle_idempotent scoreDB mgr0 "s1" "submitted" "n"
      scoreQuestions 0 scoreSession rfl).1 (by decide)
  · exact (C3_lifecycle_idempotent nsDB mgr0 "s1" "submitted" "n"
      scoreQuestions 0 nsSession rfl).2.1 rfl
  · exact (C3_lifecycle_idempotent doneDB mgr0 "s1" "submitted" "n"
      scoreQuestions 0 doneSession rfl).2.2.1 rfl
  · exact (C3_lifecycle_idempotent scoreDB mgr0 "s1" "submitted" "n"
      scoreQuestions 0 scoreSession rfl).2.2.2 (by decide)

/-- One-step unfolding of the timer loop. -/
theorem timerLoop_succ (mgr : Manager) (db : DB) (sid : String) (r : Nat) :
    timerLoop mgr db sid (r + 1) =
      match get_session (update_session_time db sid (r : Int)) sid with
      | none => (update_session_time db sid (r : Int),
          mgr.send sid (tickEvent (r : Int)), r)
      | some s =>
        if s.status = .completed then
          (update_session_time db sid (r : Int),
           mgr.send sid (tickEvent (r : Int)), r)
        else
          let next := timerLoop mgr (update_session_time db sid (r : Int)) sid r
          (next.1, mgr.send sid (tickEvent (r : Int)) ++ next.2.1,
           next.2.2) := rfl

/-- Unfolding of run_timer. -/
theorem run_timer_eq (db : DB) (mgr : Manager) (sid now : String) :
    run_timer db mgr sid now =
      match get_session db sid with
      | none => (db, mgr, [])
      | some s =>
        let res := timerLoop mgr db sid s.time_remaining_seconds.toNat
        if res.2.2 = 0 then
          let fin := end_quiz res.1 mgr sid "time_expired" now
          (fin.1, fin.2.1, res.2.1 ++ fin.2.2)
        else (res.1, mgr, res.2.1) := rfl

/-- update_session_time is an id-preserving row update, so reads commute. -/
theorem get_session_update_time (db : DB) (sid : String) (t : Int) :
    get_session (update_session_time db sid t) sid
      = (get_session db sid).map (fun s =>
          if s.id == sid then { s with time_remaining_seconds := t } else s) := by
  show get_session { db with sessions := db.sessions.map _ } sid = _
  exact get_session_map_update db sid _ (fun x => by
    by_cases hx : (x.id == sid) = true
    · simp [hx]
    · simp [hx])

/-- Running the timer loop to exhaustion: while the session stays
in_progress (no concurrent activity) and connected, n units of fuel
produce exactly the ticks n-1, n-2, ..., 0 and leave the persisted
remaining time at 0. -/
theorem timerLoop_run (mgr : Manager) (sid : String)
    (hc : mgr.is_connected sid = true) :
    ∀ (n : Nat) (db : DB) (s : Session),
      get_session db sid = some s → s.status = .in_progress →
      ∃ db', timerLoop mgr db sid n =
          (db', (List.range n).reverse.map (fun k : Nat => tickEvent (k : Int)), 0)
        ∧ get_session db' sid =
            some (if n = 0 then s
                  else { s with time_remaining_seconds := 0 }) := by
  intro n
  induction n with
  | zero =>
    intro db s hs _
    exact ⟨db, rfl, by simpa using hs⟩
  | succ r ih =>
    intro db s hs hst
    have hfind := List.find?_some hs
    have hsid : s.id = sid := beq_iff_eq.mp hfind
    have hget1 : get_session (update_session_time db sid (r : Int)) sid
        = some { s with time_remaining_seconds := (r : Int) } := by
      rw [get_session_update_time, hs]
      simp only [Option.map_some']
      simp [hsid]
    obtain ⟨db', hrun, hget'⟩ := ih (update_session_time db sid (r : Int))
      { s with time_remaining_seconds := (r : Int) } hget1 hst
    refine ⟨db', ?_, ?_⟩
    · rw [timerLoop_succ, hget1]
      dsimp only
      rw [if_neg (by simp [hst])]
      rw [hrun]
      simp [Manager.send, hc, List.range_succ]
    · rw [hget']
      cases r with
      | zero => simp
      | succ k => simp

/-- C4: with no client activity, a started in_progress session with
remaining time n > 0 gets exactly the timer_tick events n-1 down to 0
followed by exactly one quiz_complete event whose reason is time_expired;
and whenever an iteration's re-read finds the session gone or already
completed, the loop stops right after that iteration's tick (no
double-completion by the timer). -/
theorem C4_timer_expiry (db : DB) (mgr : Manager) (sid now : String)
    (s : Session) (n : Nat)
    (hs : get_session db sid = some s) (hst : s.status = .in_progress)
    (ht : s.time_remaining_seconds = (n : Int)) (hn : 0 < n)
    (hc : mgr.is_connected sid = true) :
    (∃ qc, (run_timer db mgr sid now).2.2 =
        ((List.range n).reverse.map (fun k : Nat => tickEvent (k : Int)))
          ++ [qc]
      ∧ objGet? qc "type" = some (.str "quiz_complete")
      ∧ objGet? qc "reason" = some (.str "time_expired")) ∧
    (∀ (db2 : DB) (s2 : Session) (r : Nat),
      get_session db2 sid = some s2 → s2.status = .completed →
      timerLoop mgr db2 sid (r + 1) =
        (update_session_time db2 sid (r : Int),
         mgr.send sid (tickEvent (r : Int)), r)) ∧
    (∀ (db2 : DB) (r : Nat),
      get_session db2 sid = none →
      timerLoop mgr db2 sid (r + 1) =
        (update_session_time db2 sid (r : Int),
         mgr.send sid (tickEvent (r : Int)), r)) := by
  refine ⟨?_, ?_, ?_⟩
  · obtain ⟨db', hrun, hget'⟩ := timerLoop_run mgr sid hc n db s hs hst
    have hget0 : get_session db' sid
        = some { s with time_remaining_seconds := 0 } := by
      rw [hget', if_neg (Nat.pos_iff_ne_zero.mp hn)]
    have hev : (run_timer db mgr sid now).2.2
        = ((List.range n).reverse.map (fun k : Nat => tickEvent (k : Int)))
          ++ (end_quiz db' mgr sid "time_expired" now).2.2 := by
      rw [run_timer_eq, hs]
      dsimp only
      rw [ht]
      simp only [Int.toNat_ofNat]
      rw [hrun]
      simp
    have hend : ∃ qc,
        (end_quiz db' mgr sid "time_expired" now).2.2 = [qc]
        ∧ objGet? qc "type" = some (.str "quiz_complete")
        ∧ objGet? qc "reason" = some (.str "time_expired") := by
      simp only [end_quiz]
      rw [hget0]
      dsimp only
      rw [if_neg (by simp [hst])]
      dsimp only
      simp only [Manager.send, hc, if_true]
      exact ⟨_, rfl, rfl, rfl⟩
    obtain ⟨qc, hqc, hty, hrs⟩ := hend
    exact ⟨qc, by rw [hev, hqc], hty, hrs⟩
  · intro db2 s2 r hs2 hst2
    have hfind2 := List.find?_some hs2
    have hsid2 : s2.id = sid := beq_iff_eq.mp hfind2
    have hget2 : get_session (update_session_time db2 sid (r : Int)) sid
        = some { s2 with time_remaining_seconds := (r : Int) } := by
      rw [get_session_update_time, hs2]
      simp only [Option.map_some']
      simp [hsid2]
    rw [timerLoop_succ, hget2]
    dsimp only
    rw [if_pos (by simp [hst2])]
  · intro db2 r hs2
    have hget2 : get_session (update_session_time db2 sid (r : Int)) sid
        = none := by
      rw [get_session_update_time, hs2]
      rfl
    rw [timerLoop_succ, hget2]

def timerSession : Session := { scoreSession with time_remaining_seconds := 2 }

def timerDB : DB := { scoreDB with sessions := [timerSession] }

theorem C4_timer_expiry_witness :
    ∃ qc, (run_timer timerDB mgr0 "s1" "n").2.2 =
        ((List.range 2).reverse.map (fun k : Nat => tickEvent (k : Int)))
          ++ [qc]
      ∧ objGet? qc "type" = some (.str "quiz_complete")
      ∧ objGet? qc "reason" = some (.str "time_expired") :=
  (C4_timer_expiry timerDB mgr0 "s1" "n" timerSession 2 rfl rfl rfl
    (by decide) (by decide)).1

/-- C5: navigation semantics.  next/prev require an integer `current` in
[1, n] and move to target = current ± 1; go_to_question takes the target
straight from question_number; any missing/non-integer field or
out-of-range value (of the field or of the computed target) is a silent
no-op — no event, no mutation; a successful navigation persists the
target ordinal, re-stamps the question timer and pushes the question event
for the target, which carries the previously saved answer for that
question or null when none was saved. -/
theorem C5_navigation (db : DB) (mgr : Manager) (sid : String)
    (data : List (String × JVal)) (questions : List Question) (nowT : Nat) :
    (∀ direction current : Int, (direction = 1 ∨ direction = -1) →
      pyAsInt? (dictGet? data "current") = some current →
      1 ≤ current → current ≤ (questions.length : Int) →
      1 ≤ current + direction →
      current + direction ≤ (questions.length : Int) →
      ∃ q, questions[(current + direction - 1).toNat]? = some q ∧
        _handle_navigate db mgr sid data questions direction nowT =
          ⟨update_current_question db sid (current + direction),
           mgr.start_question_timer sid nowT,
           (mgr.start_question_timer sid nowT).send sid
             (_send_question
               (update_current_question db sid (current + direction)) sid q
               (current + direction) (questions.length : Int)),
           none⟩) ∧
    (∀ direction current : Int,
      pyAsInt? (dictGet? data "current") = some current →
      1 ≤ current → current ≤ (questions.length : Int) →
      (current + direction < 1 ∨
        (questions.length : Int) < current + direction) →
      _handle_navigate db mgr sid data questions direction nowT
        = ⟨db, mgr, [], none⟩) ∧
    (∀ direction : Int,
      (pyAsInt? (dictGet? data "current") = none ∨
       (∃ current, pyAsInt? (dictGet? data "current") = some current ∧
         (current < 1 ∨ (questions.length : Int) < current))) →
      _handle_navigate db mgr sid data questions direction nowT
        = ⟨db, mgr, [], none⟩) ∧
    (∀ target : Int,
      pyAsInt? (dictGet? data "question_number") = some target →
      1 ≤ target → target ≤ (questions.length : Int) →
      ∃ q, questions[(target - 1).toNat]? = some q ∧
        _handle_goto db mgr sid data questions nowT =
          ⟨update_current_question db sid target,
           mgr.start_question_timer sid nowT,
           (mgr.start_question_timer sid nowT).send sid
             (_send_question (update_current_question db sid target) sid q
               target (questions.length : Int)),
           none⟩) ∧
    ((pyAsInt? (dictGet? data "question_number") = none ∨
      (∃ t, pyAsInt? (dictGet? data "question_number") = some t ∧
        (t < 1 ∨ (questions.length : Int) < t))) →
      _handle_goto db mgr sid data questions nowT = ⟨db, mgr, [], none⟩) ∧
    (∀ (t num tot : Int) (q : Question),
      objGet? (_send_question (update_current_question db sid t) sid q
          num tot) "existing_answer"
        = some (match _get_existing_answer db sid q.id with
                | some a => .str a
                | none => .null)) := by
  refine ⟨?_, ?_, ?_, ?_, ?_, ?_⟩
  · intro direction current _ hcur h1 h2 h3 h4
    have hidx : (current + direction - 1).toNat < questions.length := by
      omega
    refine ⟨questions[(current + direction - 1).toNat],
      List.getElem?_eq_getElem hidx, ?_⟩
    simp only [_handle_navigate, hcur]
    rw [if_neg (by omega), if_neg (by omega),
        List.getElem?_eq_getElem hidx]
  · intro direction current hcur h1 h2 hout
    simp only [_handle_navigate, hcur]
    rw [if_neg (by omega), if_pos (by omega)]
  · intro direction hbad
    rcases hbad with hnone | ⟨current, hcur, hout⟩
    · simp only [_handle_navigate, hnone]
    · simp only [_handle_navigate, hcur]
      rw [if_pos (by omega)]
  · intro target htg h1 h2
    have hidx : (target - 1).toNat < questions.length := by omega
    refine ⟨questions[(target - 1).toNat],
      List.getElem?_eq_getElem hidx, ?_⟩
    simp only [_handle_goto, htg]
    rw [if_neg (by omega), List.getElem?_eq_getElem hidx]
  · intro hbad
    rcases hbad with hnone | ⟨t, htg, hout⟩
    · simp only [_handle_goto, hnone]
    · simp only [_handle_goto, htg]
      rw [if_pos (by omega)]
  · intro t num tot q
    rfl

theorem C5_navigation_witness :
    (∃ q, scoreQuestions[(1 : Nat)]? = some q ∧
      _handle_navigate scoreDB mgr0 "s1" [("current", .int 1)]
          scoreQuestions 1 7 =
        ⟨update_current_question scoreDB "s1" 2,
         mgr0.start_question_timer "s1" 7,
         (mgr0.start_question_timer "s1" 7).send "s1"
           (_send_question (update_current_question scoreDB "s1" 2) "s1" q 2
             (scoreQuestions.length : Int)),
         none⟩) ∧
    (_handle_navigate scoreDB mgr0 "s1" [("current", .int 1)]
        scoreQuestions (-1) 7 = ⟨scoreDB, mgr0, [], none⟩) ∧
    (_handle_navigate scoreDB mgr0 "s1" [] scoreQuestions 1 7
        = ⟨scoreDB, mgr0, [], none⟩) ∧
    (∃ q, scoreQuestions[(2 : Nat)]? = some q ∧
      _handle_goto scoreDB mgr0 "s1" [("question_number", .int 3)]
          scoreQuestions 7 =
        ⟨update_current_question scoreDB "s1" 3,
         mgr0.start_question_timer "s1" 7,
         (mgr0.start_question_timer "s1" 7).send "s1"
           (_send_question (update_current_question scoreDB "s1" 3) "s1" q 3
             (scoreQuestions.length : Int)),
         none⟩) ∧
    (_handle_goto scoreDB mgr0 "s1" [("question_number", .int 99)]
        scoreQuestions 7 = ⟨scoreDB, mgr0, [], none⟩) ∧
    (objGet? (_send_question (update_current_question scoreDB "s1" 2) "s1"
        { id := "q1", quiz_id := "quiz-1", question_number := 1,
          question_text := "Q1", options := ["a", "b"],
          correct_answer := "a", points := 1 } 2 3) "existing_answer"
      = some (match _get_existing_answer scoreDB "s1" "q1" with
              | some a => .str a
              | none => .null)) := by
  refine ⟨?_, ?_, ?_, ?_, ?_, ?_⟩
  · exact (C5_navigation scoreDB mgr0 "s1" [("current", .int 1)]
      scoreQuestions 7).1 1 1 (Or.inl rfl) rfl (by decide) (by decide)
      (by decide) (by decide)
  · exact (C5_navigation scoreDB mgr0 "s1" [("current", .int 1)]
      scoreQuestions 7).2.1 (-1) 1 rfl (by decide) (by decide) (by decide)
  · exact (C5_navigation scoreDB mgr0 "s1" [] scoreQuestions 7).2.2.1 1
      (Or.inl rfl)
  · exact (C5_navigation scoreDB mgr0 "s1" [("question_number", .int 3)]
      scoreQuestions 7).2.2.2.1 3 rfl (by decide) (by decide)
  · exact (C5_navigation scoreDB mgr0 "s1" [("question_number", .int 99)]
      scoreQuestions 7).2.2.2.2.1 (Or.inr ⟨99, rfl, by decide⟩)
  · exact (C5_navigation scoreDB mgr0 "s1" [] scoreQuestions 7).2.2.2.2.2
      2 2 3
      { id := "q1", quiz_id := "quiz-1", question_number := 1,
        question_text := "Q1", options := ["a", "b"],
        correct_answer := "a", points := 1 }

/-- C6: answer validation.  A question_id that is not a string present in
the quiz's question-id set pushes the "Invalid question ID" error and
mutates nothing; a valid question_id with an answer that is not a string
among that question's options pushes the distinct "Invalid answer" error
and mutates nothing; a valid pair upserts the response with the elapsed
seconds since the question-start stamp and pushes answer_received carrying
the question id and that elapsed time. -/
theorem C6_answer_validation (db : DB) (mgr : Manager) (sid : String)
    (data : List (String × JVal)) (question_ids : List String)
    (question_options : List (String × List String)) (nowT : Nat)
    (now : String) :
    ((pyAsStr? (dictGet? data "question_id") = none ∨
      (∃ qid, pyAsStr? (dictGet? data "question_id") = some qid ∧
        question_ids.contains qid = false)) →
      _handle_answer db mgr sid data question_ids question_options nowT now
        = ⟨db, mgr, mgr.send sid (errorEvent "Invalid question ID"), none⟩) ∧
    (∀ qid, pyAsStr? (dictGet? data "question_id") = some qid →
      question_ids.contains qid = true →
      (pyAsStr? (dictGet? data "answer") = none ∨
       (∃ a, pyAsStr? (dictGet? data "answer") = some a ∧
         (lookupOptions question_options qid).contains a = false)) →
      _handle_answer db mgr sid data question_ids question_options nowT now
        = ⟨db, mgr, mgr.send sid (errorEvent "Invalid answer"), none⟩) ∧
    (∀ qid a, pyAsStr? (dictGet? data "question_id") = some qid →
      question_ids.contains qid = true →
      pyAsStr? (dictGet? data "answer") = some a →
      (lookupOptions question_options qid).contains a = true →
      _handle_answer db mgr sid data question_ids question_options nowT now
        = ⟨(save_response db sid qid a
              (mgr.get_question_time_spent sid nowT) now).1, mgr,
           mgr.send sid (.obj [("type", .str "answer_received"),
             ("question_id", .str qid),
             ("time_spent", .int (mgr.get_question_time_spent sid nowT))]),
           none⟩) := by
  refine ⟨?_, ?_, ?_⟩
  · intro hbad
    rcases hbad with hnone | ⟨qid, hqid, hmem⟩
    · simp only [_handle_answer, hnone]
    · simp only [_handle_answer, hqid]
      rw [if_pos (by simpa using hmem)]
  · intro qid hqid hmem hbad
    rcases hbad with hnone | ⟨a, ha, hopt⟩
    · simp only [_handle_answer, hqid, hnone]
      rw [if_neg (by simpa using hmem)]
    · simp only [_handle_answer, hqid, ha]
      rw [if_neg (by simpa using hmem), if_pos (by simpa using hopt)]
  · intro qid a hqid hmem ha hopt
    simp only [_handle_answer, hqid, ha]
    rw [if_neg (by simpa using hmem), if_neg (by simpa using hopt)]

theorem C6_answer_validation_witness :
    (_handle_answer scoreDB mgr0 "s1" [("question_id", .str "zz")]
        ["q1", "q2", "q3"] [("q1", ["a", "b"])] 4 "n"
      = ⟨scoreDB, mgr0, mgr0.send "s1" (errorEvent "Invalid question ID"),
         none⟩) ∧
    (_handle_answer scoreDB mgr0 "s1"
        [("question_id", .str "q1"), ("answer", .str "zz")]
        ["q1", "q2", "q3"] [("q1", ["a", "b"])] 4 "n"
      = ⟨scoreDB, mgr0, mgr0.send "s1" (errorEvent "Invalid answer"),
         none⟩) ∧
    (_handle_answer scoreDB mgr0 "s1"
        [("question_id", .str "q1"), ("answer", .str "a")]
        ["q1", "q2", "q3"] [("q1", ["a", "b"])] 4 "n"
      = ⟨(save_response scoreDB "s1" "q1" "a"
            (mgr0.get_question_time_spent "s1" 4) "n").1, mgr0,
         mgr0.send "s1" (.obj [("type", .str "answer_received"),
           ("question_id", .str "q1"),
           ("time_spent", .int (mgr0.get_question_time_spent "s1" 4))]),
         none⟩) := by
  refine ⟨?_, ?_, ?_⟩
  · exact (C6_answer_validation scoreDB mgr0 "s1"
      [("question_id", .str "zz")] ["q1", "q2", "q3"] [("q1", ["a", "b"])]
      4 "n").1 (Or.inr ⟨"zz", rfl, by decide⟩)
  · exact (C6_answer_validation scoreDB mgr0 "s1"
      [("question_id", .str "q1"), ("answer", .str "zz")]
      ["q1", "q2", "q3"] [("q1", ["a", "b"])] 4 "n").2.1 "q1" rfl
      (by decide) (Or.inr ⟨"zz", rfl, by decide⟩)
  · exact (C6_answer_validation scoreDB mgr0 "s1"
      [("question_id", .str "q1"), ("answer", .str "a")]
      ["q1", "q2", "q3"] [("q1", ["a", "b"])] 4 "n").2.2 "q1" "a" rfl
      (by decide) rfl (by decide)

/-- C7: the dispatcher never terminates the connection.  No exception ever
escapes handle_message; a message whose type is not one of the six known
kinds produces an error event whose description includes the offending
type; and any exception escaping a handler body is converted at the
dispatcher boundary into the generic "Failed to process message" error
event. -/
theorem C7_dispatcher_safety (db : DB) (mgr : Manager) (sid : String)
    (data : List (String × JVal)) (questions : List Question)
    (question_ids : List String)
    (question_options : List (String × List String)) (nowT : Nat)
    (now : String) :
    (handle_message db mgr sid data questions question_ids question_options
        nowT now).exn = none ∧
    (∀ t : String, dictGet? data "type" = some (.str t) →
      t ∉ knownMessageTypes →
      handle_message db mgr sid data questions question_ids question_options
          nowT now
        = ⟨db, mgr,
           mgr.send sid (errorEvent ("Unknown message type: " ++ t)),
           none⟩) ∧
    (∀ r : HResult,
      dispatch db mgr sid data questions question_ids question_options
          nowT now = r →
      r.exn.isSome = true →
      handle_message db mgr sid data questions question_ids question_options
          nowT now
        = ⟨r.db, r.mgr,
           r.events ++ r.mgr.send sid (errorEvent "Failed to process message"),
           none⟩) := by
  refine ⟨?_, ?_, ?_⟩
  · show (match (dispatch db mgr sid data questions question_ids
        question_options nowT now).exn with
      | some _ =>
        ({ db := (dispatch db mgr sid data questions question_ids
              question_options nowT now).db
           mgr := (dispatch db mgr sid data questions question_ids
              question_options nowT now).mgr
           events := (dispatch db mgr sid data questions question_ids
              question_options nowT now).events ++
             (dispatch db mgr sid data questions question_ids
                question_options nowT now).mgr.send sid
               (errorEvent "Failed to process message")
           exn := none } : HResult)
      | none => dispatch db mgr sid data questions question_ids
          question_options nowT now).exn = none
    cases h : (dispatch db mgr sid data questions question_ids
        question_options nowT now).exn with
    | none => simpa using h
    | some e => simp
  · intro t hty hne
    simp only [List.mem_cons, not_or, knownMessageTypes,
      List.not_mem_nil] at hne
    obtain ⟨h1, h2, h3, h4, h5, h6, _⟩ := hne
    have hd : dispatch db mgr sid data questions question_ids
        question_options nowT now
      = ⟨db, mgr,
         mgr.send sid (errorEvent ("Unknown message type: " ++ t)),
         none⟩ := by
      simp only [dispatch, hty, isType]
      rw [if_neg (by simpa using h1), if_neg (by simpa using h2),
          if_neg (by simpa using h3), if_neg (by simpa using h4),
          if_neg (by simpa using h5), if_neg (by simpa using h6)]
      rfl
    show (match (dispatch db mgr sid data questions question_ids
        question_options nowT now).exn with
      | some _ =>
        ({ db := (dispatch db mgr sid data questions question_ids
              question_options nowT now).db
           mgr := (dispatch db mgr sid data questions question_ids
              question_options nowT now).mgr
           events := (dispatch db mgr sid data questions question_ids
              question_options nowT now).events ++
             (dispatch db mgr sid data questions question_ids
                question_options nowT now).mgr.send sid
               (errorEvent "Failed to process message")
           exn := none } : HResult)
      | none => dispatch db mgr sid data questions question_ids
          question_options nowT now) = _
    rw [hd]
  · intro r hr hsome
    obtain ⟨e, he⟩ := Option.isSome_iff_exists.mp hsome
    show (match (dispatch db mgr sid data questions question_ids
        question_options nowT now).exn with
      | some _ =>
        ({ db := (dispatch db mgr sid data questions question_ids
              question_options nowT now).db
           mgr := (dispatch db mgr sid data questions question_ids
              question_options nowT now).mgr
           events := (dispatch db mgr sid data questions question_ids
              question_options nowT now).events ++
             (dispatch db mgr sid data questions question_ids
                question_options nowT now).mgr.send sid
               (errorEvent "Failed to process message")
           exn := none } : HResult)
      | none => dispatch db mgr sid data questions question_ids
          question_options nowT now) = _
    rw [hr, he]

theorem C7_dispatcher_safety_witness :
    ((handle_message scoreDB mgr0 "s1" [("type", .str "bogus")]
        scoreQuestions ["q1"] [] 4 "n").exn = none) ∧
    (handle_message scoreDB mgr0 "s1" [("type", .str "bogus")]
        scoreQuestions ["q1"] [] 4 "n"
      = ⟨scoreDB, mgr0,
         mgr0.send "s1" (errorEvent ("Unknown message type: " ++ "bogus")),
         none⟩) ∧
    (handle_message nsDB mgr0 "s1" [("type", .str "start_quiz")] []
        ["q1"] [] 4 "n"
      = ⟨(dispatch nsDB mgr0 "s1" [("type", .str "start_quiz")] []
            ["q1"] [] 4 "n").db,
         (dispatch nsDB mgr0 "s1" [("type", .str "start_quiz")] []
            ["q1"] [] 4 "n").mgr,
         (dispatch nsDB mgr0 "s1" [("type", .str "start_quiz")] []
            ["q1"] [] 4 "n").events ++
           (dispatch nsDB mgr0 "s1" [("type", .str "start_quiz")] []
              ["q1"] [] 4 "n").mgr.send "s1"
             (errorEvent "Failed to process message"),
         none⟩) := by
  refine ⟨?_, ?_, ?_⟩
  · exact (C7_dispatcher_safety scoreDB mgr0 "s1" [("type", .str "bogus")]
      scoreQuestions ["q1"] [] 4 "n").1
  · exact (C7_dispatcher_safety scoreDB mgr0 "s1" [("type", .str "bogus")]
      scoreQuestions ["q1"] [] 4 "n").2.1 "bogus" rfl (by decide)
  · exact (C7_dispatcher_safety nsDB mgr0 "s1" [("type", .str "start_quiz")]
      [] ["q1"] [] 4 "n").2.2 _ rfl rfl

theorem mem_insertByQN {b q : Question} {l : List Question} :
    b ∈ insertByQN q l ↔ b = q ∨ b ∈ l := by
  induction l with
  | nil => simp [insertByQN]
  | cons x xs ih =>
    rw [insertByQN]
    by_cases hle : q.question_number ≤ x.question_number
    · rw [if_pos hle]
      simp [or_comm, or_left_comm]
    · rw [if_neg hle]
      simp only [List.mem_cons, ih]
      tauto

theorem insertByQN_pairwise (q : Question) (l : List Question)
    (h : l.Pairwise (fun a b => a.question_number ≤ b.question_number)) :
    (insertByQN q l).Pairwise
      (fun a b => a.question_number ≤ b.question_number) := by
  induction l with
  | nil => simp [insertByQN]
  | cons x xs ih =>
    rw [insertByQN]
    rw [List.pairwise_cons] at h
    by_cases hle : q.question_number ≤ x.question_number
    · rw [if_pos hle]
      refine List.Pairwise.cons ?_ (List.Pairwise.cons h.1 h.2)
      intro b hb
      rcases List.mem_cons.mp hb with hbx | hbxs
      · exact hbx ▸ hle
      · exact le_trans hle (h.1 b hbxs)
    · rw [if_neg hle]
      refine List.Pairwise.cons ?_ (ih h.2)
      intro b hb
      rcases mem_insertByQN.mp hb with hbq | hbxs
      · exact hbq ▸ le_of_not_le hle
      · exact h.1 b hbxs

theorem sortByQN_pairwise (l : List Question) :
    (sortByQN l).Pairwise
      (fun a b => a.question_number ≤ b.question_number) := by
  induction l with
  | nil => exact List.Pairwise.nil
  | cons x xs ih => exact insertByQN_pairwise x (sortByQN xs) ih

/-- C8: the question event payload has exactly the fields type,
question_number, total_questions, question (with id/text/options) and
existing_answer — no correct_answer field anywhere; the quiz_complete
results list is ordered by question ordinal, covers every question of the
quiz one-for-one, exposes each question's correct answer there, and for an
unanswered question reports your_answer null, is_correct false and
time_spent 0 (for an answered one, the stored answer, correctness and
accumulated time). -/
theorem C8_payload_no_leak (db : DB) (sid quiz_id : String) (q : Question)
    (num tot : Int) (rs : List JoinedResponse) :
    objKeys (_send_question db sid q num tot)
      = ["type", "question_number", "total_questions", "question",
         "existing_answer"] ∧
    (∀ sub, objGet? (_send_question db sid q num tot) "question" = some sub →
      objKeys sub = ["id", "text", "options"]) ∧
    objGet? (_send_question db sid q num tot) "correct_answer" = none ∧
    (get_questions db quiz_id).Pairwise
      (fun a b => a.question_number ≤ b.question_number) ∧
    (buildResults rs (get_questions db quiz_id)).length
      = (get_questions db quiz_id).length ∧
    (∀ i : Nat, (buildResults rs (get_questions db quiz_id))[i]?
       = ((get_questions db quiz_id)[i]?).map (resultEntry rs)) ∧
    (∀ q2 : Question,
      objGet? (resultEntry rs q2) "question_number"
          = some (.int q2.question_number) ∧
      objGet? (resultEntry rs q2) "question_text"
          = some (.str q2.question_text) ∧
      objGet? (resultEntry rs q2) "correct_answer"
          = some (.str q2.correct_answer)) ∧
    (∀ q2 : Question, rs.find? (fun r => r.question_id == q2.id) = none →
      objGet? (resultEntry rs q2) "your_answer" = some .null ∧
      objGet? (resultEntry rs q2) "is_correct" = some (.bool false) ∧
      objGet? (resultEntry rs q2) "time_spent" = some (.int 0)) ∧
    (∀ (q2 : Question) (r : JoinedResponse),
      rs.find? (fun r2 => r2.question_id == q2.id) = some r →
      objGet? (resultEntry rs q2) "your_answer" = some (.str r.answer) ∧
      objGet? (resultEntry rs q2) "is_correct" = some (.bool r.is_correct) ∧
      objGet? (resultEntry rs q2) "time_spent"
          = some (.int r.time_spent_seconds)) := by
  refine ⟨rfl, ?_, rfl, sortByQN_pairwise _, List.length_map _ _, ?_, ?_, ?_, ?_⟩
  · intro sub hsub
    have h0 : objGet? (_send_question db sid q num tot) "question"
        = some (.obj [("id", .str q.id), ("text", .str q.question_text),
                      ("options", .arr (q.options.map JVal.str))]) := rfl
    rw [h0] at hsub
    injection hsub with h
    rw [← h]
    rfl
  · intro i
    exact List.getElem?_map (resultEntry rs) (get_questions db quiz_id) i
  · intro q2
    exact ⟨rfl, rfl, rfl⟩
  · intro q2 hfind
    simp only [resultEntry, hfind]
    exact ⟨rfl, rfl, rfl⟩
  · intro q2 r hfind
    simp only [resultEntry, hfind]
    exact ⟨rfl, rfl, rfl⟩

def jr1 : JoinedResponse :=
  { session_id := "s1", question_id := "q1", answer := "a",
    is_correct := true, time_spent_seconds := 3, answered_at := "t1",
    question_number := 1, correct_answer := "a", points := 1 }

def q1Fixture : Question :=
  { id := "q1", quiz_id := "quiz-1", question_number := 1,
    question_text := "Q1", options := ["a", "b"], correct_answer := "a",
    points := 1 }

def q3Fixture : Question :=
  { id := "q3", quiz_id := "quiz-1", question_number := 3,
    question_text := "Q3", options := ["a", "b"], correct_answer := "a",
    points := 2 }

theorem C8_payload_no_leak_witness :
    (objKeys (JVal.obj [("id", .str "q1"), ("text", .str "Q1"),
        ("options", .arr (["a", "b"].map JVal.str))])
      = ["id", "text", "options"]) ∧
    (objGet? (resultEntry [jr1] q3Fixture) "your_answer" = some .null ∧
     objGet? (resultEntry [jr1] q3Fixture) "is_correct" = some (.bool false) ∧
     objGet? (resultEntry [jr1] q3Fixture) "time_spent" = some (.int 0)) ∧
    (objGet? (resultEntry [jr1] q1Fixture) "your_answer" = some (.str "a") ∧
     objGet? (resultEntry [jr1] q1Fixture) "is_correct" = some (.bool true) ∧
     objGet? (resultEntry [jr1] q1Fixture) "time_spent" = some (.int 3)) := by
  refine ⟨?_, ?_, ?_⟩
  · exact (C8_payload_no_leak scoreDB "s1" "quiz-1" q1Fixture 2 3 [jr1]).2.1
      (JVal.obj [("id", .str "q1"), ("text", .str "Q1"),
        ("options", .arr (["a", "b"].map JVal.str))]) rfl
  · exact (C8_payload_no_leak scoreDB "s1" "quiz-1" q1Fixture 2 3
      [jr1]).2.2.2.2.2.2.2.1 q3Fixture rfl
  · have h := (C8_payload_no_leak scoreDB "s1" "quiz-1" q1Fixture 2 3
      [jr1]).2.2.2.2.2.2.2.2 q1Fixture jr1 rfl
    exact h

/-- C9: no access token is ever persisted for a session.  The sessions
schema has no token column (database.create_session's third parameter is
student_name and it accepts no token, even though the REST endpoint passes
one as its third positional argument), so the row dict the WebSocket
attach reads has no "token" key, session.get('token', '') is always the
empty string, and the token check — which rejects empty tokens outright
and otherwise compares against the stored value in constant time — can
never pass: no attach attempt is ever admitted. -/
theorem C9_token_never_accepted :
    "token" ∉ sessionColumns ∧
    (∀ s : Session, (sessionRowObj s).map (fun p => p.1) = sessionColumns) ∧
    (∀ s : Session, dictGetD (sessionRowObj s) "token" (.str "") = .str "") ∧
    (∀ (db : DB) (mgr : Manager) (maxConnections : Nat) (sid token : String),
      websocket_attach db mgr maxConnections sid token
        ≠ AttachResult.admitted) := by
  refine ⟨by decide, fun s => rfl, fun s => rfl, ?_⟩
  intro db mgr maxC sid token
  unfold websocket_attach
  cases h : get_session db sid with
  | none => simp
  | some s =>
    dsimp only
    by_cases hc : s.status = .completed
    · simp [hc]
    · rw [if_neg hc]
      rw [if_pos ?cond]
      case cond =>
        by_cases htok : token = ""
        · exact Or.inl htok
        · refine Or.inr ?_
          show ¬ (compare_digest token "" = true)
          simp [compare_digest, htok]
      simp

/-- C10: database.py defines no function get_questions_for_client, yet
main.py calls it from the quiz-detail REST endpoint and from the WebSocket
endpoint right after a connection is admitted.  The quiz-detail endpoint
therefore fails with an AttributeError (a 500) for every existing quiz,
and an admitted WebSocket connection is torn down by the endpoint's outer
exception handler before the connected event or any protocol message is
handled. -/
theorem C10_missing_client_questions :
    databaseModuleFunctions.contains "get_questions_for_client" = false ∧
    (∀ (db : DB) (quiz_id : String) (quiz : Quiz),
      quiz_id.length ≤ 100 → get_quiz db quiz_id = some quiz →
      get_quiz_endpoint db quiz_id
        = .error (500,
            "AttributeError: module app.database has no attribute get_questions_for_client")) ∧
    (∀ (db : DB) (mgr : Manager) (sid : String),
      websocket_session_body db mgr sid = (mgr.disconnect sid, [], false)) := by
  refine ⟨by decide, ?_, fun db mgr sid => rfl⟩
  intro db quiz_id quiz hlen hq
  unfold get_quiz_endpoint
  rw [if_neg (by omega), hq]
  rfl

theorem C10_missing_client_questions_witness :
    get_quiz_endpoint scoreDB "quiz-1"
      = .error (500,
          "AttributeError: module app.database has no attribute get_questions_for_client")
    ∧ websocket_session_body scoreDB mgr0 "s1"
        = (mgr0.disconnect "s1", [], false) :=
  ⟨(C10_missing_client_questions).2.1 scoreDB "quiz-1" scoreQuiz
      (by decide) rfl,
   (C10_missing_client_questions).2.2 scoreDB mgr0 "s1"⟩

end QuizEngine
